import Mathlib

set_option maxHeartbeats 1000000

/-!
Shallow embedding of the state/reducer engine of the textbook-delivery app
(`gestor-libros-app`): the normalized entity model, the pure `reducer`, the
scan dedup filter, the CDN URL sanitizer and the import / delete-guard /
scan-confirmation handlers, together with theorems settling the spec claims.
-/

namespace GestorLibros

/-- A book reference inside a course: `{ isbn, title }`. -/
structure Libro where
  isbn : String
  title : String
deriving DecidableEq, Inhabited

/-- `Curso`: `{ id, nombre, libros }` with an ordered book list. -/
structure Curso where
  id : String
  nombre : String
  libros : List Libro
deriving DecidableEq, Inhabited

/-- `Clase`: `{ id, nombre, cursoId }`. -/
structure Clase where
  id : String
  nombre : String
  cursoId : String
deriving DecidableEq, Inhabited

/-- `Alumno`: `{ id, nombre, claseId, librosEntregados }`. -/
structure Alumno where
  id : String
  nombre : String
  claseId : String
  librosEntregados : List String
deriving DecidableEq, Inhabited

/-- The selection cursor `{ cursoId, claseId, alumnoId }`, each nullable. -/
structure Seleccion where
  cursoId : Option String
  claseId : Option String
  alumnoId : Option String
deriving DecidableEq, Inhabited

/-- The whole snapshot `{ cursos, clases, alumnos, seleccion }`. -/
structure AppState where
  cursos : List Curso
  clases : List Clase
  alumnos : List Alumno
  seleccion : Seleccion
deriving DecidableEq, Inhabited

/-- The empty snapshot returned by `loadState` on a fresh start and by
`RESET_STATE`. -/
def estadoVacio : AppState :=
  { cursos := [], clases := [], alumnos := [],
    seleccion := { cursoId := none, claseId := none, alumnoId := none } }

/-- Reorder direction, the `'up' | 'down'` payload field. -/
inductive Direction where
  | up
  | down
deriving DecidableEq

/-- JS truthiness fallback `t || d` for an optional string payload field
(an absent or empty `title` falls back to the placeholder). -/
def jsOr (t : Option String) (d : String) : String :=
  match t with
  | none => d
  | some s => if s = "" then d else s

/-- The reducer's action type.  `uid()` is random at run time, so the fresh id
generated inside the `ADD_CURSO` / `ADD_CLASE` / `ADD_ALUMNO` branches is
carried explicitly on the action; `unknown` stands for any unmatched
action type (the reducer's `default` branch). -/
inductive Action where
  | addCurso (newId : String) (payload : String)
  | delCurso (cursoId : String)
  | addLibroACurso (cursoId : String) (isbn : String) (title : Option String)
  | delLibroDeCurso (cursoId : String) (isbn : String)
  | reorderLibros (cursoId : String) (isbn : String) (direction : Direction)
  | addClase (newId : String) (cursoId : String) (nombre : String)
  | delClase (claseId : String)
  | addAlumno (newId : String) (claseId : String) (nombre : String)
  | delAlumno (alumnoId : String)
  | selectCurso (payload : Option String)
  | selectClase (payload : Option String)
  | selectAlumno (payload : Option String)
  | marcarLibro (alumnoId : String) (barcode : String)
  | desmarcarLibro (alumnoId : String) (barcode : String)
  | importState (payload : AppState)
  | resetState
  | unknown
deriving DecidableEq

/-- `c.libros.findIndex(l => l.isbn === isbn)`; JS `-1` becomes `none`. -/
def findIdxIsbn (isbn : String) : List Libro → Option Nat
  | [] => none
  | l :: rest => if l.isbn = isbn then some 0 else (findIdxIsbn isbn rest).map (· + 1)

/-- The per-course function of the `REORDER_LIBROS` branch: copy the list and
swap the found index with its neighbour in the given direction, when not at
the boundary.  The JS destructuring swap reads both cells before writing, so
it is the two `set`s below. -/
def reorderCurso (cursoId isbn : String) (direction : Direction) (c : Curso) : Curso :=
  if c.id ≠ cursoId then c
  else
    match findIdxIsbn isbn c.libros with
    | none => c
    | some index =>
      let newLibros :=
        if direction = Direction.up ∧ index > 0 then
          (c.libros.set (index - 1) (c.libros.getD index default)).set index
            (c.libros.getD (index - 1) default)
        else if direction = Direction.down ∧ index < c.libros.length - 1 then
          (c.libros.set (index + 1) (c.libros.getD index default)).set index
            (c.libros.getD (index + 1) default)
        else c.libros
      { c with libros := newLibros }

/-- The pure state-transition function `reducer(state, action)`. -/
def reducer (state : AppState) (action : Action) : AppState :=
  match action with
  | .addCurso newId payload =>
    let nuevo : Curso := { id := newId, nombre := payload.trim, libros := [] }
    { state with
      cursos := state.cursos ++ [nuevo],
      seleccion := { state.seleccion with cursoId := some nuevo.id } }
  | .delCurso cursoId =>
    { state with
      cursos := state.cursos.filter (fun c => c.id != cursoId),
      seleccion := { state.seleccion with
        cursoId := if state.seleccion.cursoId = some cursoId then none
                   else state.seleccion.cursoId } }
  | .addLibroACurso cursoId isbn title =>
    { state with
      cursos := state.cursos.map (fun c =>
        if c.id ≠ cursoId then c
        else if c.libros.any (fun l => l.isbn == isbn) then c
        else { c with
          libros := c.libros ++ [{ isbn := isbn, title := jsOr title ("Libro " ++ isbn) }] }) }
  | .delLibroDeCurso cursoId isbn =>
    { state with
      cursos := state.cursos.map (fun c =>
        if c.id ≠ cursoId then c
        else { c with libros := c.libros.filter (fun l => l.isbn != isbn) }) }
  | .reorderLibros cursoId isbn direction =>
    { state with cursos := state.cursos.map (reorderCurso cursoId isbn direction) }
  | .addClase newId cursoId nombre =>
    { state with
      clases := state.clases ++ [{ id := newId, nombre := nombre.trim, cursoId := cursoId }] }
  | .delClase claseId =>
    { state with
      clases := state.clases.filter (fun c => c.id != claseId),
      seleccion := { state.seleccion with
        claseId := if state.seleccion.claseId = some claseId then none
                   else state.seleccion.claseId } }
  | .addAlumno newId claseId nombre =>
    let nuevo : Alumno :=
      { id := newId, nombre := nombre.trim, claseId := claseId, librosEntregados := [] }
    { state with
      alumnos := state.alumnos ++ [nuevo],
      seleccion := { state.seleccion with alumnoId := some nuevo.id } }
  | .delAlumno alumnoId =>
    { state with
      alumnos := state.alumnos.filter (fun a => a.id != alumnoId),
      seleccion := { state.seleccion with
        alumnoId := if state.seleccion.alumnoId = some alumnoId then none
                    else state.seleccion.alumnoId } }
  | .selectCurso payload =>
    { state with seleccion := { cursoId := payload, claseId := none, alumnoId := none } }
  | .selectClase payload =>
    { state with seleccion := { state.seleccion with claseId := payload, alumnoId := none } }
  | .selectAlumno payload =>
    { state with seleccion := { state.seleccion with alumnoId := payload } }
  | .marcarLibro alumnoId barcode =>
    { state with
      alumnos := state.alumnos.map (fun a =>
        if a.id ≠ alumnoId then a
        else if a.librosEntregados.contains barcode then a
        else { a with librosEntregados := a.librosEntregados ++ [barcode] }) }
  | .desmarcarLibro alumnoId barcode =>
    { state with
      alumnos := state.alumnos.map (fun a =>
        if a.id = alumnoId then
          { a with librosEntregados := a.librosEntregados.filter (fun b => b != barcode) }
        else a) }
  | .importState payload => payload
  | .resetState => estadoVacio
  | .unknown => state

/-- A transient user notice type: green success or red error. -/
inductive MsgType where
  | success
  | error
deriving DecidableEq

/-- A transient user notice `{ text, type }`. -/
structure Msg where
  text : String
  type : MsgType
deriving DecidableEq

/-- `SeccionControl.handleScan`: the delivery-confirmation scan flow.  Returns
the dispatched action (if any) and the surfaced notice (if any). -/
def handleScanControl (barcode : String) (alumnoSel : Option Alumno)
    (cursoDeClase : Option Curso) : Option Action × Option Msg :=
  match alumnoSel, cursoDeClase with
  | some alumnoS, some curso =>
    match curso.libros.find? (fun l => l.isbn == barcode) with
    | some libroRequerido =>
      (some (Action.marcarLibro alumnoS.id barcode),
       some { text := "\"" ++ libroRequerido.title ++ "\" marcado.", type := MsgType.success })
    | none =>
      (none, some { text := "Libro no encontrado en la lista del curso.", type := MsgType.error })
  | _, _ => (none, none)

/-- A parsed import payload: the three top-level collections may each be
absent (JS falsy), plus the selection carried through unvalidated. -/
structure RawPayload where
  cursos : Option (List Curso)
  clases : Option (List Clase)
  alumnos : Option (List Alumno)
  seleccion : Seleccion
deriving DecidableEq

/-- The presence check `!parsed.cursos || !parsed.clases || !parsed.alumnos`
of `importarJSON`: `some` exactly when all three collections are present. -/
def payloadState? (p : RawPayload) : Option AppState :=
  match p.cursos, p.clases, p.alumnos with
  | some cs, some ks, some al =>
    some { cursos := cs, clases := ks, alumnos := al, seleccion := p.seleccion }
  | _, _, _ => none

/-- `importarJSON` after parsing: on a payload missing a collection it throws,
the catch surfaces the error and nothing is dispatched; otherwise it
dispatches `IMPORT_STATE`.  Returns (new state, dispatched action, notice). -/
def importarJSON (state : AppState) (parsed : RawPayload) : AppState × Option Action × Msg :=
  match payloadState? parsed with
  | some st =>
    (reducer state (Action.importState st), some (Action.importState st),
     { text := "Datos importados correctamente.", type := MsgType.success })
  | none =>
    (state, none, { text := "Error al importar: Formato no válido.", type := MsgType.error })

/-- `SeccionGestion.confirmarBorradoCurso`: the UI-layer in-use guard around
`DEL_CURSO`.  Returns the resulting state and the error notice, if any. -/
def confirmarBorradoCurso (state : AppState) (curso : Curso) : AppState × Option Msg :=
  if state.clases.any (fun c => c.cursoId == curso.id) then
    (state,
     some { text := "No se puede borrar un curso que está en uso por una clase.",
            type := MsgType.error })
  else
    (reducer state (Action.delCurso curso.id), none)

/-- The scanner's `ultimoLeidoRef` cell: last accepted code and timestamp. -/
structure UltimoLeido where
  code : String
  ts : Int
deriving DecidableEq

/-- The dedup condition of the `decodeFromStream` callback:
`code && (code !== ultimoLeido.code || now - ultimoLeido.ts > 2500)`. -/
def acceptCode (ultimoLeido : UltimoLeido) (code : String) (now : Int) : Bool :=
  code != "" && (code != ultimoLeido.code || decide (now - ultimoLeido.ts > 2500))

/-- One decode event through the dedup filter: on acceptance the cell is
updated and `onDetect` fires (counted); otherwise nothing happens. -/
def scanStep (st : UltimoLeido × Nat) (ev : String × Int) : UltimoLeido × Nat :=
  if acceptCode st.1 ev.1 ev.2 then ({ code := ev.1, ts := ev.2 }, st.2 + 1) else st

/-- Run a list of `(code, timestamp)` decode events through the filter,
starting from the initial cell `{ code: "", ts: 0 }`; returns the final cell
and the number of `onDetect` dispatches. -/
def scanRun (eventos : List (String × Int)) : UltimoLeido × Nat :=
  eventos.foldl scanStep ({ code := "", ts := 0 }, 0)

/-- The recommended clean ZXing locator (`ZXING_ESM_URL`). -/
def ZXING_ESM_URL : String := "https://cdn.jsdelivr.net/npm/@zxing/browser@0.1.5/esm/index.js"

/-- The CDN base path that the sanitizer collapses when duplicated. -/
def NPM_BASE : String := "https://cdn.jsdelivr.net/npm/"

/-- Character-list test that `pat` begins `cs`. -/
def startsWithChars : List Char → List Char → Bool
  | [], _ => true
  | _ :: _, [] => false
  | p :: ps, c :: cs => p == c && startsWithChars ps cs

/-- Replace the leftmost occurrence of `pat` by `rep` (a non-global JS regex
replace of a literal pattern); the input is returned unchanged when `pat`
does not occur. -/
def replaceFirstChars (pat rep : List Char) : List Char → List Char
  | [] => []
  | c :: rest =>
    if startsWithChars pat (c :: rest) then rep ++ (c :: rest).drop pat.length
    else c :: replaceFirstChars pat rep rest

/-- The second rewrite of `sanitizeCdnUrl`, `out.replace(/\/+esm$/, "")`: the
regex matches one or more `/` characters followed by the letters `esm` at the
end of the string (the `+` is a quantifier, not a literal), and the leftmost
match removes the whole trailing slash run together with `esm`. -/
def stripSlashEsm (cs : List Char) : List Char :=
  let r := cs.reverse
  if startsWithChars ['m', 's', 'e'] r then
    let rest := r.drop 3
    let slashes := rest.takeWhile (fun c => c == '/')
    if slashes.length ≥ 1 then (rest.drop slashes.length).reverse else cs
  else cs

/-- `sanitizeCdnUrl(url)`: falsy input falls back to the clean locator;
otherwise collapse the duplicated base prefix (first occurrence), then apply
the `/\/+esm$/` strip. -/
def sanitizeCdnUrl (url : String) : String :=
  if url = "" then ZXING_ESM_URL
  else
    let paso1 := replaceFirstChars (NPM_BASE ++ NPM_BASE).toList NPM_BASE.toList url.toList
    String.mk (stripSlashEsm paso1)

/-- The strict selection hierarchy of the spec: a selected class requires a
selected course it belongs to and must exist; a selected student requires a
selected class it belongs to and must exist. -/
def selInv (s : AppState) : Prop :=
  (∀ cid, s.seleccion.claseId = some cid →
      s.seleccion.cursoId ≠ none ∧
      ∃ k, k ∈ s.clases ∧ k.id = cid ∧ s.seleccion.cursoId = some k.cursoId) ∧
  (∀ aid, s.seleccion.alumnoId = some aid →
      s.seleccion.claseId ≠ none ∧
      ∃ a, a ∈ s.alumnos ∧ a.id = aid ∧ s.seleccion.claseId = some a.claseId)

/-- States reachable by reducer actions from the empty snapshot. -/
inductive Reachable : AppState → Prop where
  | base : Reachable estadoVacio
  | step (s : AppState) (a : Action) : Reachable s → Reachable (reducer s a)

/-- The data-model invariant: no two BookRefs in a course share an isbn. -/
def noDupIsbns (s : AppState) : Prop :=
  ∀ c ∈ s.cursos, (c.libros.map Libro.isbn).Nodup

/-- A mark / unmark action on a fixed `(student, isbn)` pair. -/
inductive MD where
  | marcar
  | desmarcar
deriving DecidableEq

/-- The reducer action denoted by an `MD` toggle. -/
def MD.toAction (m : MD) (alumnoId barcode : String) : Action :=
  match m with
  | .marcar => Action.marcarLibro alumnoId barcode
  | .desmarcar => Action.desmarcarLibro alumnoId barcode

/-- Run a sequence of mark / unmark toggles on one `(student, isbn)` pair. -/
def runMD (alumnoId barcode : String) (s : AppState) (ms : List MD) : AppState :=
  ms.foldl (fun st m => reducer st (m.toAction alumnoId barcode)) s

/-! ### Helper lemmas -/

theorem map_eq_self_of {α : Type} (l : List α) (f : α → α) (h : ∀ a ∈ l, f a = a) :
    l.map f = l := by
  induction l with
  | nil => rfl
  | cons a t ih =>
    have ha := h a (by simp)
    have ht := ih (fun x hx => h x (by simp [hx]))
    simp [ha, ht]

theorem getD_map_of_lt {α β : Type} (f : α → β) (l : List α) (i : Nat) (d : β) (da : α)
    (h : i < l.length) : (l.map f).getD i d = f (l.getD i da) := by
  induction l generalizing i with
  | nil => exact absurd h (by simp)
  | cons a t ih =>
    cases i with
    | zero => rfl
    | succ n =>
      have hn : n < t.length := by simpa using h
      simpa using ih n hn

/-! ### C1: selection hierarchy -/

/-- Claim C1 (counterexample): the strict selection hierarchy does NOT hold in
every reachable state.  From the empty snapshot, `ADD_ALUMNO` auto-selects the
created student while leaving `seleccion.claseId` null, so the reachable state
has a non-null `alumnoId` with a null `claseId`. -/
theorem claim_c1_cex :
    Reachable (reducer estadoVacio (Action.addAlumno "a1" "k1" "Ana"))
  ∧ ¬ selInv (reducer estadoVacio (Action.addAlumno "a1" "k1" "Ana")) := by
  constructor
  · exact Reachable.step _ _ Reachable.base
  · intro h
    exact (h.2 "a1" rfl).1 rfl

/-- Claim C1 (amended): what the reducer does guarantee is the downstream
clearing — `SELECT_CURSO` sets the course selection and nulls the class and
student selection, `SELECT_CLASE` sets the class selection and nulls the
student selection (keeping the course selection), and `SELECT_ALUMNO` only
sets the student selection; the reducer performs no existence or
parent-selection validation. -/
theorem claim_c1 (s : AppState) (p : Option String) :
    ((reducer s (Action.selectCurso p)).seleccion
        = { cursoId := p, claseId := none, alumnoId := none })
  ∧ ((reducer s (Action.selectClase p)).seleccion
        = { cursoId := s.seleccion.cursoId, claseId := p, alumnoId := none })
  ∧ ((reducer s (Action.selectAlumno p)).seleccion
        = { cursoId := s.seleccion.cursoId, claseId := s.seleccion.claseId, alumnoId := p }) :=
  ⟨rfl, rfl, rfl⟩

/-! ### C2: URL sanitizer -/

/-- Claim C2 (code bug): on the malformed locator with the duplicated base
prefix and the trailing `+esm` modifier, `sanitizeCdnUrl` collapses the
duplication but does NOT strip the trailing `/+esm` — the regex `/\/+esm$/`
uses `+` as a quantifier on `\/`, so it never matches the literal `/+esm`
suffix, and the result keeps it, contradicting the app's own embedded test
(which expects the clean `ZXING_ESM_URL`).  An already-clean locator is
returned unchanged. -/
theorem claim_c2 :
    (sanitizeCdnUrl "https://cdn.jsdelivr.net/npm/https://cdn.jsdelivr.net/npm/@zxing/browser@0.1.5/esm/index.js/+esm"
        = "https://cdn.jsdelivr.net/npm/@zxing/browser@0.1.5/esm/index.js/+esm")
  ∧ (sanitizeCdnUrl "https://cdn.jsdelivr.net/npm/https://cdn.jsdelivr.net/npm/@zxing/browser@0.1.5/esm/index.js/+esm"
        ≠ ZXING_ESM_URL)
  ∧ (sanitizeCdnUrl ZXING_ESM_URL = ZXING_ESM_URL) :=
  ⟨by decide, by decide, by decide⟩

/-! ### C6: import rejects payloads missing a collection -/

/-- Claim C6: a payload lacking any of the three collections is rejected
before any mutation: the prior snapshot is returned, no action is dispatched
to the reducer, and an error notice is surfaced. -/
theorem claim_c6 (s : AppState) (p : RawPayload)
    (h : p.cursos = none ∨ p.clases = none ∨ p.alumnos = none) :
    (importarJSON s p).1 = s ∧ (importarJSON s p).2.1 = none
  ∧ (importarJSON s p).2.2.type = MsgType.error := by
  have hp : payloadState? p = none := by
    rcases p with ⟨pc, pk, pa, sel⟩
    rcases pc with _ | cs <;> rcases pk with _ | ks <;> rcases pa with _ | al <;>
      simp_all [payloadState?]
  simp [importarJSON, hp]

/-- Witness for C6 at a concrete payload missing the `clases` collection. -/
theorem claim_c6_witness :
    (importarJSON estadoVacio
        { cursos := some [], clases := none, alumnos := some [],
          seleccion := { cursoId := none, claseId := none, alumnoId := none } }).1
      = estadoVacio :=
  (claim_c6 estadoVacio _ (Or.inr (Or.inl rfl))).1

/-! ### C9: DEL_CURSO performs no referential check -/

/-- Claim C9: `DEL_CURSO` blindly removes the course with the given id for
every state (no referential-integrity check), leaves the classes and students
untouched, and clears `seleccion.cursoId` exactly when it equalled the removed
id; the in-use guard lives only in the UI caller `confirmarBorradoCurso`,
which blocks the dispatch when some class references the course. -/
theorem claim_c9 (s : AppState) (cursoId : String) :
    ((reducer s (Action.delCurso cursoId)).cursos
        = s.cursos.filter (fun c => c.id != cursoId))
  ∧ ((reducer s (Action.delCurso cursoId)).clases = s.clases)
  ∧ ((reducer s (Action.delCurso cursoId)).alumnos = s.alumnos)
  ∧ ((reducer s (Action.delCurso cursoId)).seleccion.cursoId
        = if s.seleccion.cursoId = some cursoId then none else s.seleccion.cursoId)
  ∧ ((reducer s (Action.delCurso cursoId)).seleccion.claseId = s.seleccion.claseId)
  ∧ ((reducer s (Action.delCurso cursoId)).seleccion.alumnoId = s.seleccion.alumnoId)
  ∧ (∀ curso : Curso, (∃ k ∈ s.clases, k.cursoId = curso.id) →
        (confirmarBorradoCurso s curso).1 = s
      ∧ (confirmarBorradoCurso s curso).2.isSome = true) := by
  refine ⟨rfl, rfl, rfl, rfl, rfl, rfl, ?_⟩
  intro curso hused
  have hany : s.clases.any (fun c => c.cursoId == curso.id) = true := by
    obtain ⟨k, hk, he⟩ := hused
    exact List.any_eq_true.mpr ⟨k, hk, by simp [he]⟩
  simp [confirmarBorradoCurso, hany]

/-- Witness for C9's guard clause at a concrete in-use course. -/
theorem claim_c9_witness :
    (confirmarBorradoCurso
        { cursos := [{ id := "c1", nombre := "C", libros := [] }],
          clases := [{ id := "k1", nombre := "K", cursoId := "c1" }],
          alumnos := [],
          seleccion := { cursoId := none, claseId := none, alumnoId := none } }
        { id := "c1", nombre := "C", libros := [] }).1
      = { cursos := [{ id := "c1", nombre := "C", libros := [] }],
          clases := [{ id := "k1", nombre := "K", cursoId := "c1" }],
          alumnos := [],
          seleccion := { cursoId := none, claseId := none, alumnoId := none } } :=
  ((claim_c9 _ "c1").2.2.2.2.2.2 { id := "c1", nombre := "C", libros := [] }
    ⟨{ id := "k1", nombre := "K", cursoId := "c1" }, by simp, rfl⟩).1

/-! ### C3: scan dedup filter -/

/-- Claim C3 (counterexample): exactly 2500 ms elapsed does NOT count as
"at least 2500 ms".  The code's condition is strict (`now - ts > 2500`), so
after accepting code "A" at t = 0, re-decoding "A" at t = 2500 is rejected and
no second dispatch fires, although the claim's bound (≥ 2500 ms) is met. -/
theorem claim_c3_cex :
    ((2500 : Int) - 0 ≥ 2500)
  ∧ acceptCode { code := "A", ts := 0 } "A" 2500 = false
  ∧ (scanRun [("A", 0), ("A", 2500)]).2 = 1 :=
  ⟨by decide, by decide, by decide⟩

/-- Claim C3 (amended): a decoded non-empty code is accepted iff it differs
from the last-accepted code or STRICTLY more than 2500 ms have elapsed since
that code's last acceptance (exactly 2500 ms is rejected); hence the same code
re-decoded within up to 2500 ms yields exactly one dispatch, and re-decoding
it more than 2500 ms (e.g. 3000 ms) after the first acceptance yields a
second dispatch. -/
theorem claim_c3 (ultimo : UltimoLeido) (code : String) (now : Int)
    (c : String) (t0 d d2 : Int)
    (hc : c ≠ "") (hd0 : 0 ≤ d) (hd : d ≤ 2500) (hd2 : 2500 < d2) :
    (acceptCode ultimo code now = true ↔
        (code ≠ "" ∧ (code ≠ ultimo.code ∨ now - ultimo.ts > 2500)))
  ∧ ((scanRun [(c, t0), (c, t0 + d)]).2 = 1)
  ∧ ((scanRun [(c, t0), (c, t0 + d), (c, t0 + d2)]).2 = 2) := by
  have hcb : (c != "") = true := bne_iff_ne.mpr hc
  have s1 : scanStep ({ code := "", ts := 0 }, 0) (c, t0) = ({ code := c, ts := t0 }, 1) := by
    simp [scanStep, acceptCode, hcb]
  have hdec1 : decide (t0 + d - t0 > 2500) = false := decide_eq_false (by omega)
  have s2 : scanStep ({ code := c, ts := t0 }, 1) (c, t0 + d) = ({ code := c, ts := t0 }, 1) := by
    simp only [scanStep, acceptCode]
    simp [hdec1]
    exact fun _ => hd
  have hdec2 : decide (t0 + d2 - t0 > 2500) = true := decide_eq_true (by omega)
  have s3 : scanStep ({ code := c, ts := t0 }, 1) (c, t0 + d2)
      = ({ code := c, ts := t0 + d2 }, 2) := by
    simp only [scanStep, acceptCode]
    simp [hdec2, hcb]
    exact hd2
  refine ⟨?_, ?_, ?_⟩
  · simp [acceptCode]
  · simp [scanRun, s1, s2]
  · simp [scanRun, s1, s2, s3]

/-- Witness for C3 at the spec's scenario: the same code at 0 ms and 500 ms
dispatches once; adding a decode at 3000 ms dispatches a second time. -/
theorem claim_c3_witness :
    (scanRun [("A", 0), ("A", 0 + 500)]).2 = 1
  ∧ (scanRun [("A", 0), ("A", 0 + 500), ("A", 0 + 3000)]).2 = 2 :=
  ⟨(claim_c3 { code := "A", ts := 0 } "A" 2500 "A" 0 500 3000
      (by decide) (by decide) (by decide) (by decide)).2.1,
   (claim_c3 { code := "A", ts := 0 } "A" 2500 "A" 0 500 3000
      (by decide) (by decide) (by decide) (by decide)).2.2⟩

/-! ### C7: delivery-confirmation scan flow -/

/-- Claim C7: in `SeccionControl.handleScan`, an absent selected student or
course ignores the scan (no dispatch, no notice); an exact isbn hit dispatches
exactly one `MARCAR_LIBRO` for that student and barcode and surfaces a success
notice naming the matched title; a miss dispatches nothing and surfaces the
error notice. -/
theorem claim_c7 (barcode : String) (alumnoSel : Option Alumno) (cursoDeClase : Option Curso) :
    ((alumnoSel = none ∨ cursoDeClase = none) →
        handleScanControl barcode alumnoSel cursoDeClase = (none, none))
  ∧ (∀ alumnoS curso, alumnoSel = some alumnoS → cursoDeClase = some curso →
      ((∃ l ∈ curso.libros, l.isbn = barcode) →
          (handleScanControl barcode alumnoSel cursoDeClase).1
              = some (Action.marcarLibro alumnoS.id barcode)
        ∧ ∃ l ∈ curso.libros, l.isbn = barcode ∧
            (handleScanControl barcode alumnoSel cursoDeClase).2
              = some { text := "\"" ++ l.title ++ "\" marcado.", type := MsgType.success })
      ∧ ((∀ l ∈ curso.libros, l.isbn ≠ barcode) →
          handleScanControl barcode alumnoSel cursoDeClase
            = (none, some { text := "Libro no encontrado en la lista del curso.",
                            type := MsgType.error }))) := by
  constructor
  · rintro (rfl | rfl)
    · rfl
    · cases alumnoSel <;> rfl
  · rintro alumnoS curso rfl rfl
    cases hf : curso.libros.find? (fun l => l.isbn == barcode) with
    | some libro =>
      have hmem := List.mem_of_find?_eq_some hf
      have hisbn : libro.isbn = barcode := by
        have := List.find?_some hf
        simpa using this
      constructor
      · intro _
        constructor
        · simp [handleScanControl, hf]
        · exact ⟨libro, hmem, hisbn, by simp [handleScanControl, hf]⟩
      · intro hmiss
        exact absurd hisbn (hmiss libro hmem)
    | none =>
      constructor
      · intro hhit
        obtain ⟨l, hl, he⟩ := hhit
        have := List.find?_eq_none.mp hf l hl
        simp [he] at this
      · intro _
        simp [handleScanControl, hf]

/-- Witness for C7's ignore branch: with no student selected the scan is
dropped without dispatch or notice. -/
theorem claim_c7_witness :
    handleScanControl "b" none (some { id := "c1", nombre := "C", libros := [] })
      = (none, none) :=
  (claim_c7 "b" none (some { id := "c1", nombre := "C", libros := [] })).1 (Or.inl rfl)

/-! ### C10: MARCAR/DESMARCAR frame effect -/

/-- Claim C10: `MARCAR_LIBRO` and `DESMARCAR_LIBRO` are framed to the targeted
student's delivered list: courses, classes and selection are untouched, the
student list keeps its length and order, every non-targeted student is
unchanged, each student's id, name and class binding is unchanged, and when no
student carries the given id the whole snapshot is unchanged. -/
theorem claim_c10 (s : AppState) (sid isbn : String) :
    ((reducer s (Action.marcarLibro sid isbn)).cursos = s.cursos)
  ∧ ((reducer s (Action.marcarLibro sid isbn)).clases = s.clases)
  ∧ ((reducer s (Action.marcarLibro sid isbn)).seleccion = s.seleccion)
  ∧ ((reducer s (Action.desmarcarLibro sid isbn)).cursos = s.cursos)
  ∧ ((reducer s (Action.desmarcarLibro sid isbn)).clases = s.clases)
  ∧ ((reducer s (Action.desmarcarLibro sid isbn)).seleccion = s.seleccion)
  ∧ ((reducer s (Action.marcarLibro sid isbn)).alumnos.length = s.alumnos.length)
  ∧ ((reducer s (Action.desmarcarLibro sid isbn)).alumnos.length = s.alumnos.length)
  ∧ (∀ i, i < s.alumnos.length →
        ((s.alumnos.getD i default).id ≠ sid →
            (reducer s (Action.marcarLibro sid isbn)).alumnos.getD i default
              = s.alumnos.getD i default
          ∧ (reducer s (Action.desmarcarLibro sid isbn)).alumnos.getD i default
              = s.alumnos.getD i default)
      ∧ ((reducer s (Action.marcarLibro sid isbn)).alumnos.getD i default).id
            = (s.alumnos.getD i default).id
      ∧ ((reducer s (Action.marcarLibro sid isbn)).alumnos.getD i default).nombre
            = (s.alumnos.getD i default).nombre
      ∧ ((reducer s (Action.marcarLibro sid isbn)).alumnos.getD i default).claseId
            = (s.alumnos.getD i default).claseId
      ∧ ((reducer s (Action.desmarcarLibro sid isbn)).alumnos.getD i default).id
            = (s.alumnos.getD i default).id
      ∧ ((reducer s (Action.desmarcarLibro sid isbn)).alumnos.getD i default).nombre
            = (s.alumnos.getD i default).nombre
      ∧ ((reducer s (Action.desmarcarLibro sid isbn)).alumnos.getD i default).claseId
            = (s.alumnos.getD i default).claseId)
  ∧ ((∀ a ∈ s.alumnos, a.id ≠ sid) →
        reducer s (Action.marcarLibro sid isbn) = s
      ∧ reducer s (Action.desmarcarLibro sid isbn) = s) := by
  have hm : (reducer s (Action.marcarLibro sid isbn)).alumnos
      = s.alumnos.map (fun a =>
          if a.id ≠ sid then a
          else if a.librosEntregados.contains isbn then a
          else { a with librosEntregados := a.librosEntregados ++ [isbn] }) := rfl
  have hd : (reducer s (Action.desmarcarLibro sid isbn)).alumnos
      = s.alumnos.map (fun a =>
          if a.id = sid then
            { a with librosEntregados := a.librosEntregados.filter (fun b => b != isbn) }
          else a) := rfl
  refine ⟨rfl, rfl, rfl, rfl, rfl, rfl, by simp [hm], by simp [hd], ?_, ?_⟩
  · intro i hi
    rw [hm, hd, getD_map_of_lt _ _ i default default hi, getD_map_of_lt _ _ i default default hi]
    set a := s.alumnos.getD i default with ha
    by_cases hids : a.id = sid
    · by_cases hct : isbn ∈ a.librosEntregados <;> simp [hids, hct]
    · simp [hids]
  · intro hnone
    constructor
    · show { s with alumnos := _ } = s
      rw [hm.symm] at *
      have : (reducer s (Action.marcarLibro sid isbn)).alumnos = s.alumnos := by
        rw [hm]
        exact map_eq_self_of _ _ (fun a ha => by simp [hnone a ha])
      calc reducer s (Action.marcarLibro sid isbn)
          = { s with alumnos := (reducer s (Action.marcarLibro sid isbn)).alumnos } := rfl
        _ = { s with alumnos := s.alumnos } := by rw [this]
        _ = s := rfl
    · have : (reducer s (Action.desmarcarLibro sid isbn)).alumnos = s.alumnos := by
        rw [hd]
        exact map_eq_self_of _ _ (fun a ha => by simp [hnone a ha])
      calc reducer s (Action.desmarcarLibro sid isbn)
          = { s with alumnos := (reducer s (Action.desmarcarLibro sid isbn)).alumnos } := rfl
        _ = { s with alumnos := s.alumnos } := by rw [this]
        _ = s := rfl

/-- Witness for C10: marking for an id no student carries leaves the concrete
snapshot unchanged. -/
theorem claim_c10_witness :
    reducer
        { cursos := [], clases := [],
          alumnos := [{ id := "a1", nombre := "Ana", claseId := "k1", librosEntregados := [] }],
          seleccion := { cursoId := none, claseId := none, alumnoId := none } }
        (Action.marcarLibro "zz" "i1")
      = { cursos := [], clases := [],
          alumnos := [{ id := "a1", nombre := "Ana", claseId := "k1", librosEntregados := [] }],
          seleccion := { cursoId := none, claseId := none, alumnoId := none } } :=
  ((claim_c10 _ "zz" "i1").2.2.2.2.2.2.2.2.2 (by decide)).1

/-! ### C4: mark / unmark algebra -/

theorem nodup_append_singleton {α : Type} {l : List α} {x : α}
    (hl : l.Nodup) (hx : x ∉ l) : (l ++ [x]).Nodup := by
  induction l with
  | nil => simp
  | cons a t ih =>
    rw [List.cons_append, List.nodup_cons]
    refine ⟨?_, ih (List.nodup_cons.mp hl).2 (fun hxt => hx (by simp [hxt]))⟩
    intro hmem
    rcases List.mem_append.mp hmem with h | h
    · exact (List.nodup_cons.mp hl).1 h
    · simp at h
      exact hx (by simp [h])

/-- One mark / unmark step forces the membership of the isbn for every
student carrying the targeted id: present after `MARCAR_LIBRO`, absent after
`DESMARCAR_LIBRO`. -/
theorem md_step_mem (s : AppState) (sid isbn : String) (m : MD) :
    ∀ a ∈ (reducer s (m.toAction sid isbn)).alumnos, a.id = sid →
      (isbn ∈ a.librosEntregados ↔ m = MD.marcar) := by
  intro a hmem hid
  cases m with
  | marcar =>
    obtain ⟨b, hb, rfl⟩ := List.mem_map.mp hmem
    by_cases h1 : b.id = sid
    · by_cases h2 : isbn ∈ b.librosEntregados
      · simp [h1, h2]
      · simp [h1, h2]
    · simp [h1] at hid
  | desmarcar =>
    obtain ⟨b, hb, rfl⟩ := List.mem_map.mp hmem
    by_cases h1 : b.id = sid
    · simp [h1]
    · simp [h1] at hid

/-- One mark / unmark step keeps every delivered list duplicate-free. -/
theorem md_step_nodup (s : AppState) (sid isbn : String) (m : MD)
    (h : ∀ a ∈ s.alumnos, a.librosEntregados.Nodup) :
    ∀ a ∈ (reducer s (m.toAction sid isbn)).alumnos, a.librosEntregados.Nodup := by
  intro a hmem
  cases m with
  | marcar =>
    obtain ⟨b, hb, rfl⟩ := List.mem_map.mp hmem
    by_cases h1 : b.id = sid
    · by_cases h2 : isbn ∈ b.librosEntregados
      · simpa [h1, h2] using h b hb
      · simpa [h1, h2] using nodup_append_singleton (h b hb) h2
    · simpa [h1] using h b hb
  | desmarcar =>
    obtain ⟨b, hb, rfl⟩ := List.mem_map.mp hmem
    by_cases h1 : b.id = sid
    · simp [h1]
      exact (h b hb).sublist (List.filter_sublist _)
    · simpa [h1] using h b hb

theorem runMD_append (sid isbn : String) (s : AppState) (ms : List MD) (m : MD) :
    runMD sid isbn s (ms ++ [m]) = reducer (runMD sid isbn s ms) (m.toAction sid isbn) := by
  simp [runMD, List.foldl_append]

theorem runMD_nodup (sid isbn : String) (s : AppState) (ms : List MD)
    (h : ∀ a ∈ s.alumnos, a.librosEntregados.Nodup) :
    ∀ a ∈ (runMD sid isbn s ms).alumnos, a.librosEntregados.Nodup := by
  induction ms generalizing s with
  | nil => simpa [runMD] using h
  | cons m t ih =>
    have hrun : runMD sid isbn s (m :: t) = runMD sid isbn (reducer s (m.toAction sid isbn)) t := by
      simp [runMD]
    rw [hrun]
    exact ih _ (md_step_nodup s sid isbn m h)

/-- Claim C4: repeated `MARCAR_LIBRO` is idempotent; marking an isbn already
present for every student with the id is a whole-snapshot no-op; after any
non-empty sequence of mark / unmark toggles on one `(student, isbn)` pair the
final membership equals the effect of the last toggle; and starting from
duplicate-free delivered lists, the lists stay duplicate-free throughout
(set semantics). -/
theorem claim_c4 (s : AppState) (sid isbn : String) (ms : List MD) (hms : ms ≠ [])
    (hnd : ∀ a ∈ s.alumnos, a.librosEntregados.Nodup) :
    (reducer (reducer s (Action.marcarLibro sid isbn)) (Action.marcarLibro sid isbn)
        = reducer s (Action.marcarLibro sid isbn))
  ∧ ((∀ a ∈ s.alumnos, a.id = sid → isbn ∈ a.librosEntregados) →
        reducer s (Action.marcarLibro sid isbn) = s)
  ∧ (∀ a ∈ (runMD sid isbn s ms).alumnos, a.id = sid →
        (isbn ∈ a.librosEntregados ↔ ms.getLast hms = MD.marcar))
  ∧ (∀ a ∈ (runMD sid isbn s ms).alumnos, a.librosEntregados.Nodup) := by
  set f : Alumno → Alumno := fun a =>
    if a.id ≠ sid then a
    else if a.librosEntregados.contains isbn then a
    else { a with librosEntregados := a.librosEntregados ++ [isbn] } with hfdef
  have hmap : (reducer s (Action.marcarLibro sid isbn)).alumnos = s.alumnos.map f := rfl
  have h2map : (reducer (reducer s (Action.marcarLibro sid isbn))
      (Action.marcarLibro sid isbn)).alumnos = (s.alumnos.map f).map f := rfl
  have hpt : ∀ a : Alumno, f (f a) = f a := by
    intro a
    by_cases h1 : a.id = sid
    · by_cases h2 : isbn ∈ a.librosEntregados
      · have hfa : f a = a := by simp [hfdef, h1, h2]
        rw [hfa]
        exact hfa
      · have hfa : f a = { a with librosEntregados := a.librosEntregados ++ [isbn] } := by
          simp [hfdef, h1, h2]
        rw [hfa]
        simp [hfdef, h1]
    · have hfa : f a = a := by simp [hfdef, h1]
      rw [hfa]
      exact hfa
  refine ⟨?_, ?_, ?_, ?_⟩
  · have halum : (reducer (reducer s (Action.marcarLibro sid isbn))
        (Action.marcarLibro sid isbn)).alumnos
        = (reducer s (Action.marcarLibro sid isbn)).alumnos := by
      rw [h2map, hmap]
      exact map_eq_self_of _ f (fun a ha => by
        obtain ⟨b, hb, rfl⟩ := List.mem_map.mp ha
        exact hpt b)
    calc reducer (reducer s (Action.marcarLibro sid isbn)) (Action.marcarLibro sid isbn)
        = { reducer s (Action.marcarLibro sid isbn) with
            alumnos := (reducer (reducer s (Action.marcarLibro sid isbn))
              (Action.marcarLibro sid isbn)).alumnos } := rfl
      _ = { reducer s (Action.marcarLibro sid isbn) with
            alumnos := (reducer s (Action.marcarLibro sid isbn)).alumnos } := by rw [halum]
      _ = reducer s (Action.marcarLibro sid isbn) := rfl
  · intro hall
    have halum : (reducer s (Action.marcarLibro sid isbn)).alumnos = s.alumnos := by
      rw [hmap]
      apply map_eq_self_of
      intro a ha
      by_cases h1 : a.id = sid
      · simp [hfdef, h1, hall a ha h1]
      · simp [hfdef, h1]
    calc reducer s (Action.marcarLibro sid isbn)
        = { s with alumnos := (reducer s (Action.marcarLibro sid isbn)).alumnos } := rfl
      _ = { s with alumnos := s.alumnos } := by rw [halum]
      _ = s := rfl
  · intro a hmem hid
    have hdec : ms.dropLast ++ [ms.getLast hms] = ms := List.dropLast_append_getLast hms
    have hrun : runMD sid isbn s ms
        = reducer (runMD sid isbn s ms.dropLast) ((ms.getLast hms).toAction sid isbn) := by
      conv_lhs => rw [← hdec]
      exact runMD_append sid isbn s ms.dropLast (ms.getLast hms)
    rw [hrun] at hmem
    exact md_step_mem _ sid isbn _ a hmem hid
  · exact runMD_nodup sid isbn s ms hnd

/-- Witness for C4: marking an already-delivered isbn on a concrete snapshot
is a no-op. -/
theorem claim_c4_witness :
    reducer
        { cursos := [], clases := [],
          alumnos := [{ id := "a1", nombre := "Ana", claseId := "k1",
                        librosEntregados := ["i1"] }],
          seleccion := { cursoId := none, claseId := none, alumnoId := none } }
        (Action.marcarLibro "a1" "i1")
      = { cursos := [], clases := [],
          alumnos := [{ id := "a1", nombre := "Ana", claseId := "k1",
                        librosEntregados := ["i1"] }],
          seleccion := { cursoId := none, claseId := none, alumnoId := none } } :=
  (claim_c4 _ "a1" "i1" [MD.marcar] (by decide) (by decide)).2.1 (by decide)

/-! ### List machinery for the adjacent swap of REORDER_LIBROS -/

theorem getD_set_self {α : Type} (l : List α) (i : Nat) (x d : α) (h : i < l.length) :
    (l.set i x).getD i d = x := by
  induction l generalizing i with
  | nil => exact absurd h (by simp)
  | cons a t ih =>
    cases i with
    | zero => rfl
    | succ n => exact ih n (by simpa using h)

theorem getD_set_ne {α : Type} (l : List α) (i j : Nat) (x d : α) (hij : i ≠ j) :
    (l.set i x).getD j d = l.getD j d := by
  induction l generalizing i j with
  | nil => simp
  | cons a t ih =>
    cases i with
    | zero =>
      cases j with
      | zero => exact absurd rfl hij
      | succ m => rfl
    | succ n =>
      cases j with
      | zero => rfl
      | succ m => exact ih n m (fun he => hij (by simp [he]))

theorem set_swap_adj {α : Type} [Inhabited α] (l : List α) (k : Nat) (h : k + 1 < l.length) :
    (l.set k (l.getD (k + 1) default)).set (k + 1) (l.getD k default)
      = l.take k ++ l.getD (k + 1) default :: l.getD k default :: l.drop (k + 2) := by
  induction l generalizing k with
  | nil => exact absurd h (by simp)
  | cons a t ih =>
    cases k with
    | zero =>
      cases t with
      | nil => exact absurd h (by simp)
      | cons b u => rfl
    | succ n =>
      have hn : n + 1 < t.length := by simpa using h
      exact congrArg (fun xs => a :: xs) (ih n hn)

theorem take_getD_drop {α : Type} [Inhabited α] (l : List α) (k : Nat) (h : k + 1 < l.length) :
    l = l.take k ++ l.getD k default :: l.getD (k + 1) default :: l.drop (k + 2) := by
  induction l generalizing k with
  | nil => exact absurd h (by simp)
  | cons a t ih =>
    cases k with
    | zero =>
      cases t with
      | nil => exact absurd h (by simp)
      | cons b u => rfl
    | succ n =>
      have hn : n + 1 < t.length := by simpa using h
      exact congrArg (fun xs => a :: xs) (ih n hn)

theorem swap_adj_perm {α : Type} [Inhabited α] (l : List α) (k : Nat) (h : k + 1 < l.length) :
    ((l.set k (l.getD (k + 1) default)).set (k + 1) (l.getD k default)).Perm l := by
  rw [set_swap_adj l k h]
  conv_rhs => rw [take_getD_drop l k h]
  exact List.Perm.append_left _ (List.Perm.swap _ _ _)

theorem findIdxIsbn_lt (isbn : String) (l : List Libro) (i : Nat)
    (h : findIdxIsbn isbn l = some i) : i < l.length := by
  induction l generalizing i with
  | nil => simp [findIdxIsbn] at h
  | cons a t ih =>
    by_cases ha : a.isbn = isbn
    · simp [findIdxIsbn, ha] at h
      simp only [List.length_cons]
      omega
    · simp [findIdxIsbn, ha] at h
      obtain ⟨j, hj, hji⟩ := h
      have := ih j hj
      simp only [List.length_cons]
      omega

theorem findIdxIsbn_head (isbn : String) (a : Libro) (t : List Libro) (ha : a.isbn = isbn) :
    findIdxIsbn isbn (a :: t) = some 0 := by
  simp [findIdxIsbn, ha]

theorem isbn_mem_of_getLast (isbn : String) (l : List Libro)
    (hl : l.getLast?.map Libro.isbn = some isbn) : isbn ∈ l.map Libro.isbn := by
  obtain ⟨x, hx, hxe⟩ := Option.map_eq_some'.mp hl
  have hxm : x ∈ l := by
    obtain ⟨hne, rfl⟩ := List.mem_getLast?_eq_getLast (l := l) (x := x) (by simp [hx])
    exact List.getLast_mem hne
  exact List.mem_map.mpr ⟨x, hxm, hxe⟩

theorem findIdxIsbn_last (isbn : String) (l : List Libro)
    (hnd : (l.map Libro.isbn).Nodup) (hl : l.getLast?.map Libro.isbn = some isbn) :
    findIdxIsbn isbn l = some (l.length - 1) := by
  induction l with
  | nil => simp at hl
  | cons a t ih =>
    cases t with
    | nil =>
      have ha : a.isbn = isbn := by simpa using hl
      simp [findIdxIsbn, ha]
    | cons b u =>
      have hl2 : (b :: u).getLast?.map Libro.isbn = some isbn := by
        rwa [List.getLast?_cons_cons] at hl
      have hnd2 : ((b :: u).map Libro.isbn).Nodup := by
        rw [List.map_cons] at hnd
        exact hnd.of_cons
      have hmem : isbn ∈ (b :: u).map Libro.isbn := isbn_mem_of_getLast isbn _ hl2
      have hane : ¬ a.isbn = isbn := by
        intro he
        rw [List.map_cons] at hnd
        have := (List.nodup_cons.mp hnd).1
        rw [he] at this
        exact this hmem
      have hrec := ih hnd2 hl2
      have hcons : findIdxIsbn isbn (a :: b :: u)
          = if a.isbn = isbn then some 0 else (findIdxIsbn isbn (b :: u)).map (· + 1) := rfl
      rw [hcons, if_neg hane, hrec]
      simp only [Option.map_some', List.length_cons]
      congr 1

/-! ### Characterizations of reorderCurso -/

theorem reorderCurso_id_ne (cursoId isbn : String) (dir : Direction) (c : Curso)
    (hid : ¬ c.id = cursoId) : reorderCurso cursoId isbn dir c = c := by
  simp [reorderCurso, hid]

theorem reorderCurso_not_found (cursoId isbn : String) (dir : Direction) (c : Curso)
    (hid : c.id = cursoId) (hfi : findIdxIsbn isbn c.libros = none) :
    reorderCurso cursoId isbn dir c = c := by
  have hnid : ¬ c.id ≠ cursoId := by simp [hid]
  simp only [reorderCurso, if_neg hnid, hfi]

theorem reorderCurso_eq (cursoId isbn : String) (dir : Direction) (c : Curso)
    (hid : c.id = cursoId) (index : Nat) (hfi : findIdxIsbn isbn c.libros = some index) :
    reorderCurso cursoId isbn dir c
      = if dir = Direction.up ∧ index > 0 then
          { c with libros := ((c.libros.set (index - 1) (c.libros.getD index default)).set index (c.libros.getD (index - 1) default)) }
        else if dir = Direction.down ∧ index < c.libros.length - 1 then
          { c with libros := ((c.libros.set (index + 1) (c.libros.getD index default)).set index (c.libros.getD (index + 1) default)) }
        else c := by
  have hnid : ¬ c.id ≠ cursoId := by simp [hid]
  simp only [reorderCurso, if_neg hnid, hfi]
  by_cases h1 : dir = Direction.up ∧ index > 0
  · simp [h1]
  · by_cases h2 : dir = Direction.down ∧ index < c.libros.length - 1
    · simp [h1, h2]
    · simp [h1, h2]

/-- The REORDER_LIBROS per-course transform keeps the isbn list duplicate-free
(the result is a permutation of the input book list). -/
theorem reorderCurso_nodup (cursoId isbn : String) (dir : Direction) (c : Curso)
    (h : (c.libros.map Libro.isbn).Nodup) :
    ((reorderCurso cursoId isbn dir c).libros.map Libro.isbn).Nodup := by
  by_cases hid : c.id = cursoId
  · cases hfi : findIdxIsbn isbn c.libros with
    | none => rw [reorderCurso_not_found cursoId isbn dir c hid hfi]; exact h
    | some index =>
      have hlt := findIdxIsbn_lt isbn c.libros index hfi
      rw [reorderCurso_eq cursoId isbn dir c hid index hfi]
      by_cases h1 : dir = Direction.up ∧ index > 0
      · rw [if_pos h1]
        obtain ⟨k, rfl⟩ : ∃ k, index = k + 1 := ⟨index - 1, by omega⟩
        have hk : k + 1 < c.libros.length := hlt
        have hperm := swap_adj_perm c.libros k hk
        have : (k + 1 - 1) = k := by omega
        rw [this]
        exact ((hperm.map Libro.isbn).nodup_iff).mpr h
      · rw [if_neg h1]
        by_cases h2 : dir = Direction.down ∧ index < c.libros.length - 1
        · rw [if_pos h2]
          have hk : index + 1 < c.libros.length := by omega
          have hcomm : (c.libros.set (index + 1) (c.libros.getD index default)).set index
                (c.libros.getD (index + 1) default)
              = (c.libros.set index (c.libros.getD (index + 1) default)).set (index + 1)
                (c.libros.getD index default) :=
            List.set_comm _ _ _ (by omega)
          rw [hcomm]
          have hperm := swap_adj_perm c.libros index hk
          exact ((hperm.map Libro.isbn).nodup_iff).mpr h
        · rw [if_neg h2]
          exact h
  · rw [reorderCurso_id_ne cursoId isbn dir c hid]
    exact h

/-! ### C5: no duplicate isbn in a course -/

/-- Claim C5 (counterexample): `IMPORT_STATE` is a reducer action that
replaces the snapshot with an unvalidated payload, so a state satisfying the
no-duplicate-isbn invariant can reach, in one reducer action, a state
violating it. -/
theorem claim_c5_cex :
    noDupIsbns estadoVacio
  ∧ ¬ noDupIsbns (reducer estadoVacio (Action.importState
      { cursos := [{ id := "c1", nombre := "C",
                     libros := [{ isbn := "i", title := "t1" }, { isbn := "i", title := "t2" }] }],
        clases := [], alumnos := [],
        seleccion := { cursoId := none, claseId := none, alumnoId := none } })) := by
  constructor
  · intro c hc
    simp [estadoVacio] at hc
  · intro hinv
    have := hinv { id := "c1", nombre := "C",
                   libros := [{ isbn := "i", title := "t1" }, { isbn := "i", title := "t2" }] }
      (by simp [reducer])
    simp at this

/-- Claim C5 (amended): every reducer action EXCEPT `IMPORT_STATE` preserves
the invariant that no two BookRefs in one course share an isbn (ADD_LIBRO
refuses duplicates, DEL filters, REORDER permutes), and `ADD_LIBRO_A_CURSO`
with an isbn already present in every course carrying the target id leaves
the snapshot unchanged; `IMPORT_STATE` replaces the snapshot wholesale with
its unvalidated payload and can break the invariant. -/
theorem claim_c5 (s : AppState) (a : Action)
    (ha : ∀ p, a ≠ Action.importState p) (hs : noDupIsbns s) :
    noDupIsbns (reducer s a)
  ∧ (∀ cursoId isbn title,
        (∀ c ∈ s.cursos, c.id = cursoId → ∃ l ∈ c.libros, l.isbn = isbn) →
        reducer s (Action.addLibroACurso cursoId isbn title) = s) := by
  constructor
  · cases a with
    | importState p => exact absurd rfl (ha p)
    | addCurso newId payload =>
      intro c hc
      rcases List.mem_append.mp hc with h | h
      · exact hs c h
      · simp at h
        subst h
        simp
    | delCurso cursoId =>
      intro c hc
      exact hs c (List.mem_filter.mp hc).1
    | addLibroACurso cursoId isbn title =>
      intro c hc
      obtain ⟨c0, hc0, rfl⟩ := List.mem_map.mp hc
      by_cases h1 : c0.id = cursoId
      · by_cases h2 : c0.libros.any (fun l => l.isbn == isbn) = true
        · simpa [h1, h2] using hs c0 hc0
        · have hnotin : isbn ∉ c0.libros.map Libro.isbn := by
            intro hmem
            obtain ⟨l, hl, he⟩ := List.mem_map.mp hmem
            exact h2 (List.any_eq_true.mpr ⟨l, hl, by simp [he]⟩)
          simp only [h1, h2]
          simp [h1, h2]
          exact nodup_append_singleton (hs c0 hc0) hnotin
      · simpa [h1] using hs c0 hc0
    | delLibroDeCurso cursoId isbn =>
      intro c hc
      obtain ⟨c0, hc0, rfl⟩ := List.mem_map.mp hc
      by_cases h1 : c0.id = cursoId
      · simp only [h1]
        simp [h1]
        exact (hs c0 hc0).sublist ((List.filter_sublist _).map Libro.isbn)
      · simpa [h1] using hs c0 hc0
    | reorderLibros cursoId isbn dir =>
      intro c hc
      obtain ⟨c0, hc0, rfl⟩ := List.mem_map.mp hc
      exact reorderCurso_nodup cursoId isbn dir c0 (hs c0 hc0)
    | addClase newId cursoId nombre => exact hs
    | delClase claseId => exact hs
    | addAlumno newId claseId nombre => exact hs
    | delAlumno alumnoId => exact hs
    | selectCurso p => exact hs
    | selectClase p => exact hs
    | selectAlumno p => exact hs
    | marcarLibro alumnoId barcode => exact hs
    | desmarcarLibro alumnoId barcode => exact hs
    | resetState =>
      intro c hc
      simp [reducer, estadoVacio] at hc
    | unknown => exact hs
  · intro cursoId isbn title hall
    have hcur : (reducer s (Action.addLibroACurso cursoId isbn title)).cursos = s.cursos := by
      apply map_eq_self_of
      intro c hc
      by_cases h1 : c.id = cursoId
      · obtain ⟨l, hl, he⟩ := hall c hc h1
        have hany : c.libros.any (fun x => x.isbn == isbn) = true :=
          List.any_eq_true.mpr ⟨l, hl, by simp [he]⟩
        simp [h1, hany]
      · simp [h1]
    calc reducer s (Action.addLibroACurso cursoId isbn title)
        = { s with cursos := (reducer s (Action.addLibroACurso cursoId isbn title)).cursos } := rfl
      _ = { s with cursos := s.cursos } := by rw [hcur]
      _ = s := rfl

/-- Witness for C5 at a concrete non-import action and invariant-satisfying
state. -/
theorem claim_c5_witness :
    noDupIsbns (reducer estadoVacio (Action.delCurso "x")) :=
  (claim_c5 estadoVacio (Action.delCurso "x")
    (fun p h => Action.noConfusion h)
    (fun c hc => absurd hc (by simp [estadoVacio]))).1

/-! ### C8: REORDER_LIBROS boundary no-ops and adjacent swap -/

/-- Claim C8: `REORDER_LIBROS` with direction up on the first element, or
direction down on the last element, is a no-op (the book list is returned
equal, no error state exists); off the boundary it swaps the found element
with its neighbour in the indicated direction and leaves every other element
in place.  The updated course is the one the reducer places in the new
snapshot.  The book list is assumed duplicate-free per the data-model
invariant (claim C5). -/
theorem claim_c8 (s : AppState) (cursoId isbn : String) (dir : Direction) (c : Curso)
    (hmem : c ∈ s.cursos) (hid : c.id = cursoId)
    (hnd : (c.libros.map Libro.isbn).Nodup) :
    (reorderCurso cursoId isbn dir c ∈ (reducer s (Action.reorderLibros cursoId isbn dir)).cursos)
  ∧ (dir = Direction.up → c.libros.head?.map Libro.isbn = some isbn →
        reorderCurso cursoId isbn dir c = c)
  ∧ (dir = Direction.down → c.libros.getLast?.map Libro.isbn = some isbn →
        reorderCurso cursoId isbn dir c = c)
  ∧ (∀ i, findIdxIsbn isbn c.libros = some i →
        (dir = Direction.up → 0 < i →
            (reorderCurso cursoId isbn dir c).libros.length = c.libros.length
          ∧ (reorderCurso cursoId isbn dir c).libros.getD (i - 1) default
              = c.libros.getD i default
          ∧ (reorderCurso cursoId isbn dir c).libros.getD i default
              = c.libros.getD (i - 1) default
          ∧ (∀ j, j ≠ i - 1 → j ≠ i →
              (reorderCurso cursoId isbn dir c).libros.getD j default
                = c.libros.getD j default))
      ∧ (dir = Direction.down → i < c.libros.length - 1 →
            (reorderCurso cursoId isbn dir c).libros.length = c.libros.length
          ∧ (reorderCurso cursoId isbn dir c).libros.getD (i + 1) default
              = c.libros.getD i default
          ∧ (reorderCurso cursoId isbn dir c).libros.getD i default
              = c.libros.getD (i + 1) default
          ∧ (∀ j, j ≠ i → j ≠ i + 1 →
              (reorderCurso cursoId isbn dir c).libros.getD j default
                = c.libros.getD j default))) := by
  refine ⟨List.mem_map_of_mem _ hmem, ?_, ?_, ?_⟩
  · rintro rfl hhead
    cases hcl : c.libros with
    | nil =>
      rw [hcl] at hhead
      simp at hhead
    | cons a t =>
      rw [hcl] at hhead
      have ha : a.isbn = isbn := by simpa using hhead
      have hfi : findIdxIsbn isbn c.libros = some 0 := by
        rw [hcl]
        exact findIdxIsbn_head isbn a t ha
      rw [reorderCurso_eq cursoId isbn Direction.up c hid 0 hfi]
      simp
  · rintro rfl hlast
    have hfi := findIdxIsbn_last isbn c.libros hnd hlast
    rw [reorderCurso_eq cursoId isbn Direction.down c hid _ hfi,
        if_neg (fun h => Direction.noConfusion h.1),
        if_neg (fun h => absurd h.2 (by omega))]
  · intro i hfi
    have hlt := findIdxIsbn_lt isbn c.libros i hfi
    constructor
    · rintro rfl hpos
      obtain ⟨k, rfl⟩ : ∃ k, i = k + 1 := ⟨i - 1, by omega⟩
      have hk1 : k + 1 < c.libros.length := hlt
      have hlib : (reorderCurso cursoId isbn Direction.up c).libros
          = (c.libros.set k (c.libros.getD (k + 1) default)).set (k + 1)
              (c.libros.getD k default) := by
        rw [reorderCurso_eq cursoId isbn Direction.up c hid (k + 1) hfi,
            if_pos ⟨rfl, by omega⟩]
        simp [Nat.add_sub_cancel]
      simp only [Nat.add_sub_cancel]
      refine ⟨?_, ?_, ?_, ?_⟩
      · rw [hlib]
        simp
      · rw [hlib, getD_set_ne _ (k + 1) k _ _ (by omega), getD_set_self _ k _ _ (by omega)]
      · rw [hlib, getD_set_self _ (k + 1) _ _ (by simpa using hk1)]
      · intro j hjk hjk1
        rw [hlib, getD_set_ne _ (k + 1) j _ _ (Ne.symm hjk1), getD_set_ne _ k j _ _ (Ne.symm hjk)]
    · rintro rfl hdown
      have hk1 : i + 1 < c.libros.length := by omega
      have hlib : (reorderCurso cursoId isbn Direction.down c).libros
          = (c.libros.set (i + 1) (c.libros.getD i default)).set i
              (c.libros.getD (i + 1) default) := by
        rw [reorderCurso_eq cursoId isbn Direction.down c hid i hfi,
            if_neg (fun h => Direction.noConfusion h.1), if_pos ⟨rfl, hdown⟩]
      refine ⟨?_, ?_, ?_, ?_⟩
      · rw [hlib]
        simp
      · rw [hlib, getD_set_ne _ i (i + 1) _ _ (by omega), getD_set_self _ (i + 1) _ _ (by simpa using hk1)]
      · rw [hlib, getD_set_self _ i _ _ (by simpa using hlt)]
      · intro j hji hji1
        rw [hlib, getD_set_ne _ i j _ _ (Ne.symm hji), getD_set_ne _ (i + 1) j _ _ (Ne.symm hji1)]

/-- Witness for C8: direction up on the first element of a concrete two-book
course is a no-op. -/
theorem claim_c8_witness :
    reorderCurso "c1" "a" Direction.up
        { id := "c1", nombre := "C",
          libros := [{ isbn := "a", title := "t" }, { isbn := "b", title := "u" }] }
      = { id := "c1", nombre := "C",
          libros := [{ isbn := "a", title := "t" }, { isbn := "b", title := "u" }] } :=
  (claim_c8
    { cursos := [{ id := "c1", nombre := "C",
                   libros := [{ isbn := "a", title := "t" }, { isbn := "b", title := "u" }] }],
      clases := [], alumnos := [],
      seleccion := { cursoId := none, claseId := none, alumnoId := none } }
    "c1" "a" Direction.up
    { id := "c1", nombre := "C",
      libros := [{ isbn := "a", title := "t" }, { isbn := "b", title := "u" }] }
    (List.mem_singleton.mpr rfl) rfl (by decide)).2.1 rfl rfl

end GestorLibros
